import Mathlib

/-!
# Verification of the Flappy-Bird simulation loop

Shallow embedding of the game component: constants from `src/constants.ts`,
the data model from `src/types.ts`, the simulation/game-over/restart logic of
the `FlappyGame` component, and the commentary service `getGameFeedback` from
`src/services/geminiService.ts`.  JavaScript numbers are modelled as exact
rationals; the two environment inputs (the random draw used for the pipe
height and the clock-driven sine used by the idle bobbing animation) are
passed in as explicit parameters.
-/

namespace Flappy

/-! ## Constants (src/constants.ts) -/

def GRAVITY : ℚ := 4/10

def JUMP_STRENGTH : ℚ := -75/10

def PIPE_SPEED : ℚ := 35/10

def PIPE_SPAWN_RATE : ℕ := 100

def PIPE_GAP : ℚ := 160

def PIPE_WIDTH : ℚ := 60

def BIRD_RADIUS : ℚ := 18

def BIRD_X : ℚ := 100

def CANVAS_WIDTH : ℚ := 800

def CANVAS_HEIGHT : ℚ := 600

/-- The exact value of the IEEE-754 double `Math.PI` used by the rotation
clamp in the loop (visual only; no claim depends on it). -/
def mathPI : ℚ := 884279719003555 / 281474976710656

/-! ## Data model (src/types.ts) -/

inductive GameState where
  | START
  | PLAYING
  | GAME_OVER
deriving DecidableEq

structure Bird where
  y : ℚ
  velocity : ℚ
  rotation : ℚ
deriving DecidableEq

structure Pipe where
  x : ℚ
  topHeight : ℚ
  passed : Bool
deriving DecidableEq

/-- The component state of `FlappyGame`: the React state variables
(`gameState`, `score`, `highScore`, `aiFeedback`, `loadingAi`) together with
the mutable refs (`birdRef`, `pipesRef`, `frameCountRef`; `scoreRef` tracks
`score`, so a single `score` field models both). -/
structure Component where
  gameState : GameState
  score : ℕ
  highScore : ℕ
  aiFeedback : String
  loadingAi : Bool
  bird : Bird
  pipes : List Pipe
  frameCount : ℕ
deriving DecidableEq

/-! ## Commentary service (src/services/geminiService.ts) -/

/-- Outcome of the `ai.models.generateContent` call: either it throws
(network error, malformed response, ...) or it returns a response whose
`.text` may be absent. -/
inductive ApiOutcome where
  | err
  | ok (text : Option String)
deriving DecidableEq

def MSG_NO_KEY : String := "API Key missing. I can't judge you properly."

def MSG_API_ERROR : String := "I'm speechless (API Error)."

def MSG_NO_COMMENT : String := "No comment."

/-- `getGameFeedback`: with no API key configured it returns the missing-key
fallback; if the call throws it returns the error fallback; if the response
text is absent or empty (falsy) it returns "No comment."; otherwise the
response text itself.  It is a total function: no failure escapes. -/
def getGameFeedback (apiKey : String) (_score : ℕ) (outcome : ApiOutcome) : String :=
  if apiKey = "" then MSG_NO_KEY
  else
    match outcome with
    | ApiOutcome.err => MSG_API_ERROR
    | ApiOutcome.ok none => MSG_NO_COMMENT
    | ApiOutcome.ok (some t) => if t = "" then MSG_NO_COMMENT else t

/-! ## Game transitions (FlappyGame component) -/

/-- `resetGame`: bird back to mid-height with zero velocity, pipes cleared,
frame counter and score zeroed, feedback text cleared. -/
def resetGame (c : Component) : Component :=
  { c with
    bird := { y := CANVAS_HEIGHT / 2, velocity := 0, rotation := 0 }
    pipes := []
    frameCount := 0
    score := 0
    aiFeedback := "" }

/-- `startGame`: `resetGame` followed by `setGameState(PLAYING)`. -/
def startGame (c : Component) : Component :=
  { resetGame c with gameState := GameState.PLAYING }

/-- The `jump` input handler (fired by keydown / touchstart / mousedown).
In `PLAYING` it overrides the velocity with the jump impulse; in `GAME_OVER`
it is a no-op while `loadingAi` is set, otherwise it restarts via
`startGame`; in `START` it restarts via `startGame` and additionally applies
the initial impulse (scheduled in the source through a
`requestAnimationFrame` callback, modelled here as taking effect). -/
def jump (c : Component) : Component :=
  match c.gameState with
  | GameState.PLAYING =>
      { c with bird := { c.bird with velocity := JUMP_STRENGTH } }
  | GameState.GAME_OVER =>
      if c.loadingAi then c else startGame c
  | GameState.START =>
      let c2 := startGame c
      { c2 with bird := { c2.bird with velocity := JUMP_STRENGTH } }

/-- The `onClick` handler of the PLAY AGAIN button on the game-over overlay:
it calls `startGame()` directly, with no `loadingAi` guard. -/
def playAgainClick (c : Component) : Component :=
  startGame c

/-- Resolution of the `getGameFeedback` promise awaited inside `gameOver`:
stores the feedback text and clears the loading flag. -/
def resolveFeedback (c : Component) (fb : String) : Component :=
  { c with aiFeedback := fb, loadingAi := false }

/-! ## The per-frame update (the `loop` closure), `PLAYING` branch.

Every `gameOver()` invocation inside one tick is recorded as the value of
`scoreRef.current` at the moment of the call (the list `calls`); each such
invocation performs the high-score comparison and issues one commentary
request.  React state writes (`setGameState`, `setHighScore`, ...) take
effect for the next tick, which is exactly how `loopStep` threads them. -/

/-- Bird physics: gravity, position update, and the velocity-derived
rotation clamped to ±π/4. -/
def physicsStep (b : Bird) : Bird :=
  let v := b.velocity + GRAVITY
  { y := b.y + v
    velocity := v
    rotation := min (mathPI / 4) (max (-(mathPI / 4)) (v * (1/10))) }

/-- The random gap-top height: `Math.floor(Math.random() * (max - min + 1)) + min`
with `min = 50` and `max = CANVAS_HEIGHT - PIPE_GAP - min - 100`; the
`Math.random()` draw `r` (in `[0,1)`) is a parameter. -/
def randomPipeHeight (r : ℚ) : ℚ :=
  let minPipeHeight : ℚ := 50
  let maxPipeHeight : ℚ := CANVAS_HEIGHT - PIPE_GAP - minPipeHeight - 100
  ((⌊r * (maxPipeHeight - minPipeHeight + 1)⌋ : ℤ) : ℚ) + minPipeHeight

/-- Pipe spawning: when the frame counter hits the spawn interval, one pipe
is appended at the right edge with a freshly drawn gap-top height. -/
def spawnPipes (r : ℚ) (frameCount : ℕ) (pipes : List Pipe) : List Pipe :=
  if frameCount % PIPE_SPAWN_RATE = 0 then
    pipes ++ [{ x := CANVAS_WIDTH, topHeight := randomPipeHeight r, passed := false }]
  else pipes

structure PipeOut where
  pipe : Pipe
  score : ℕ
  calls : List ℕ

/-- The circle-vs-gap collision test of the loop: horizontal overlap of the
bird circle with the pipe rectangle, and the circle outside the vertical
gap (above the gap top or below the gap bottom). -/
def pipeHit (b : Bird) (x topHeight : ℚ) : Prop :=
  (BIRD_X + BIRD_RADIUS > x ∧ BIRD_X - BIRD_RADIUS < x + PIPE_WIDTH) ∧
    (b.y - BIRD_RADIUS < topHeight ∨ b.y + BIRD_RADIUS > topHeight + PIPE_GAP)

instance (b : Bird) (x topHeight : ℚ) : Decidable (pipeHit b x topHeight) := by
  unfold pipeHit; infer_instance

/-- The pass test of the loop: the pipe is not yet marked passed and its
trailing edge is left of the bird. -/
def pipePassed (passed : Bool) (x : ℚ) : Prop :=
  passed = false ∧ x + PIPE_WIDTH < BIRD_X

instance (passed : Bool) (x : ℚ) : Decidable (pipePassed passed x) := by
  unfold pipePassed; infer_instance

/-- One iteration of the `pipesRef.current.forEach` body: move the pipe
left, run the collision test (a hit calls `gameOver()`, which reads the
score before any increment), then the pass/score test. -/
def updatePipe (b : Bird) (s : ℕ) (p : Pipe) : PipeOut :=
  let x := p.x - PIPE_SPEED
  { pipe := { x := x, topHeight := p.topHeight
              passed := if pipePassed p.passed x then true else p.passed }
    score := if pipePassed p.passed x then s + 1 else s
    calls := if pipeHit b x p.topHeight then [s] else [] }

structure PipesOut where
  pipes : List Pipe
  score : ℕ
  calls : List ℕ

/-- The whole `forEach` over the pipe list, threading the score. -/
def processPipes (b : Bird) : List Pipe → ℕ → PipesOut
  | [], s => { pipes := [], score := s, calls := [] }
  | p :: ps, s =>
      let u := updatePipe b s p
      let rest := processPipes b ps u.score
      { pipes := u.pipe :: rest.pipes, score := rest.score, calls := u.calls ++ rest.calls }

/-- Ground and ceiling handling, in source order: ground contact clamps the
bird onto the ground line and calls `gameOver()`; afterwards ceiling contact
clamps to the ceiling and zeroes the velocity (no game over). -/
def groundCeiling (b : Bird) (s : ℕ) : Bird × List ℕ :=
  let b1 :=
    if b.y + BIRD_RADIUS ≥ CANVAS_HEIGHT - 40 then { b with y := CANVAS_HEIGHT - 40 - BIRD_RADIUS }
    else b
  let calls : List ℕ := if b.y + BIRD_RADIUS ≥ CANVAS_HEIGHT - 40 then [s] else []
  let b2 :=
    if b1.y - BIRD_RADIUS ≤ 0 then { b1 with y := BIRD_RADIUS, velocity := 0 }
    else b1
  (b2, calls)

structure TickOut where
  bird : Bird
  pipes : List Pipe
  score : ℕ
  frameCount : ℕ
  calls : List ℕ

/-- The full `PLAYING` update of one tick: physics, spawning, pipe movement
with collision and scoring, pruning of off-screen pipes, ground/ceiling
checks, and the frame-counter increment. -/
def playingTick (r : ℚ) (b : Bird) (pipes : List Pipe) (score frameCount : ℕ) : TickOut :=
  let b1 := physicsStep b
  let ps1 := spawnPipes r frameCount pipes
  let pp := processPipes b1 ps1 score
  let ps2 := pp.pipes.filter (fun p => decide (p.x > -PIPE_WIDTH))
  let gc := groundCeiling b1 pp.score
  { bird := gc.1
    pipes := ps2
    score := pp.score
    frameCount := frameCount + 1
    calls := pp.calls ++ gc.2 }

/-- One invocation of the `loop` closure, as seen across ticks: in
`PLAYING` it runs `playingTick` and folds the recorded `gameOver()` calls
into the React state (state becomes `GAME_OVER`, the high score is compared
against the closure value, `loadingAi` is set); in `START` it only runs the
bobbing animation (`bob` is the environment-provided `sin(Date.now()/300)`);
in `GAME_OVER` it updates nothing.  The second result is the number of
commentary requests issued during the tick. -/
def loopStep (r bob : ℚ) (c : Component) : Component × ℕ :=
  match c.gameState with
  | GameState.PLAYING =>
      let t := playingTick r c.bird c.pipes c.score c.frameCount
      ({ c with
          bird := t.bird
          pipes := t.pipes
          score := t.score
          frameCount := t.frameCount
          gameState := if t.calls.isEmpty then GameState.PLAYING else GameState.GAME_OVER
          highScore := t.calls.foldl (fun h s => if c.highScore < s then s else h) c.highScore
          loadingAi := if t.calls.isEmpty then c.loadingAi else true },
        t.calls.length)
  | GameState.START =>
      ({ c with
          bird := { y := CANVAS_HEIGHT / 2 + bob * 10, velocity := c.bird.velocity,
                    rotation := 0 } },
        0)
  | GameState.GAME_OVER => (c, 0)

/-! ## Concrete scenario states -/

/-- A `GAME_OVER` component with resolved commentary and non-trivial leftover
round state, ready for a restart. -/
def compRestartReady : Component :=
  { gameState := GameState.GAME_OVER, score := 7, highScore := 5, aiFeedback := "ok",
    loadingAi := false,
    bird := { y := 480, velocity := 9, rotation := 1 },
    pipes := [{ x := 120, topHeight := 77, passed := true }],
    frameCount := 123 }

/-- The same component sitting on the `START` screen. -/
def compStartIdle : Component :=
  { compRestartReady with gameState := GameState.START }

/-- A `GAME_OVER` component whose commentary request is still in flight. -/
def compLoading : Component :=
  { compRestartReady with loadingAi := true }

/-- The spec's collision scenario: bird at y = 100 against a pipe at x = 90
with gap top 200 (gap `[200, 360]`). -/
def compPipeCollision : Component :=
  { gameState := GameState.PLAYING, score := 0, highScore := 0, aiFeedback := "",
    loadingAi := false,
    bird := { y := 100, velocity := 0, rotation := 0 },
    pipes := [{ x := 90, topHeight := 200, passed := false }],
    frameCount := 1 }

/-- A frame in which the bird hits the bottom pipe and the ground at once:
bird at y = 545 (one physics step puts its lower edge at 563.4, below both
the gap bottom 360 and the ground line 560). -/
def compDoubleHit : Component :=
  { compPipeCollision with bird := { y := 545, velocity := 0, rotation := 0 } }

/-- The spec's pass-through scenario: bird at y = 280, inside the gap. -/
def compInGap : Component :=
  { compPipeCollision with bird := { y := 280, velocity := 0, rotation := 0 } }

/-- The pass-through scenario a moment later: the pipe at x = 43 is about to
move past the score line (43 − 3.5 + 60 = 99.5 < 100). -/
def compAboutToPass : Component :=
  { compPipeCollision with
    bird := { y := 280, velocity := 0, rotation := 0 },
    pipes := [{ x := 43, topHeight := 200, passed := false }] }

/-- A `PLAYING` component whose bird is about to drop onto the ground line. -/
def compOnGround : Component :=
  { compPipeCollision with bird := { y := 560, velocity := 0, rotation := 0 }, pipes := [] }

/-! ## Helper lemmas -/

theorem processPipes_score (b : Bird) (ps : List Pipe) (s : ℕ) :
    (processPipes b ps s).score =
      s + ps.countP (fun p => decide (pipePassed p.passed (p.x - PIPE_SPEED))) := by
  induction ps generalizing s with
  | nil => simp [processPipes]
  | cons p ps ih =>
      simp only [processPipes, ih, List.countP_cons]
      by_cases h : pipePassed p.passed (p.x - PIPE_SPEED)
      · simp [updatePipe, h]; omega
      · simp [updatePipe, h]

theorem processPipes_topHeights (b : Bird) (ps : List Pipe) (s : ℕ) :
    ∀ p ∈ (processPipes b ps s).pipes, ∃ q ∈ ps, p.topHeight = q.topHeight := by
  induction ps generalizing s with
  | nil => simp [processPipes]
  | cons q ps ih =>
      intro p hp
      simp only [processPipes, List.mem_cons] at hp
      rcases hp with h | h
      · exact ⟨q, List.mem_cons_self q ps, by simp [h, updatePipe]⟩
      · obtain ⟨q', hq', he⟩ := ih _ p h
        exact ⟨q', List.mem_cons_of_mem _ hq', he⟩

theorem spawnPipes_mem (r : ℚ) (fc : ℕ) (ps : List Pipe) :
    ∀ q ∈ spawnPipes r fc ps, q ∈ ps ∨ q.topHeight = randomPipeHeight r := by
  intro q hq
  unfold spawnPipes at hq
  by_cases h : fc % PIPE_SPAWN_RATE = 0
  · rw [if_pos h, List.mem_append] at hq
    rcases hq with h' | h'
    · exact Or.inl h'
    · simp at h'
      exact Or.inr (by simp [h'])
  · exact Or.inl (by rwa [if_neg h] at hq)

theorem randomPipeHeight_bounds (r : ℚ) (h0 : 0 ≤ r) (h1 : r < 1) :
    50 ≤ randomPipeHeight r ∧ randomPipeHeight r ≤ 290 := by
  unfold randomPipeHeight
  norm_num [CANVAS_HEIGHT, PIPE_GAP]
  constructor
  · have : (0:ℤ) ≤ ⌊r * 241⌋ := Int.floor_nonneg.mpr (by positivity)
    exact_mod_cast this
  · have h2 : r * 241 < 241 := by nlinarith
    have h3 : ⌊r * 241⌋ < 241 := Int.floor_lt.mpr (by exact_mod_cast h2)
    have h4 : ⌊r * 241⌋ ≤ 240 := by omega
    have h5 : ((⌊r * 241⌋ : ℤ) : ℚ) ≤ 240 := by exact_mod_cast h4
    linarith

theorem loopStep_frozen (r bob : ℚ) (c : Component) (h : c.gameState = GameState.GAME_OVER) :
    loopStep r bob c = (c, 0) := by
  obtain ⟨gs, sc, hs, fb, la, b, ps, fc⟩ := c
  cases gs <;> simp_all [loopStep]

theorem groundCeiling_clamp (b : Bird) (s : ℕ)
    (h : b.y + BIRD_RADIUS ≥ CANVAS_HEIGHT - 40) :
    (groundCeiling b s).1.y = CANVAS_HEIGHT - 40 - BIRD_RADIUS ∧ (groundCeiling b s).2 = [s] := by
  simp only [groundCeiling, if_pos h]
  norm_num [BIRD_RADIUS, CANVAS_HEIGHT]

theorem loopStep_gameState_iff (r bob : ℚ) (c : Component) :
    (loopStep r bob c).1.gameState = GameState.GAME_OVER ↔
      (c.gameState = GameState.GAME_OVER ∨ (loopStep r bob c).2 ≠ 0) := by
  obtain ⟨gs, sc, hs, fb, la, b, ps, fc⟩ := c
  cases gs
  · simp [loopStep]
  · simp only [loopStep]
    by_cases h : (playingTick r b ps sc fc).calls.isEmpty
    · simp [h, List.isEmpty_iff_length_eq_zero.mp h]
    · simp [h]
      intro hlen
      exact h (by simp [List.isEmpty_iff_length_eq_zero, hlen])
  · simp [loopStep]

theorem loopStep_ground_clamp (r bob : ℚ) (c : Component)
    (hgs : c.gameState = GameState.PLAYING)
    (h : (physicsStep c.bird).y + BIRD_RADIUS ≥ CANVAS_HEIGHT - 40) :
    (loopStep r bob c).1.bird.y = CANVAS_HEIGHT - 40 - BIRD_RADIUS ∧
      (loopStep r bob c).1.gameState = GameState.GAME_OVER := by
  obtain ⟨gs, sc, hs, fb, la, b, ps, fc⟩ := c
  simp only [Component.gameState] at hgs
  subst hgs
  have hb := groundCeiling_clamp (physicsStep b)
    (processPipes (physicsStep b) (spawnPipes r fc ps) sc).score h
  simp only [loopStep, playingTick]
  constructor
  · exact hb.1
  · simp [hb.2]

/-! ## Claims -/

/-- C1 (counterexample): the `GAME_OVER → PLAYING` restart does not behave
identically to the `START → PLAYING` transition — after a restart from
`GAME_OVER` the velocity is 0, whereas the `START` path sets it to the jump
impulse, which is nonzero. -/
theorem restart_no_impulse_cex :
    (jump compRestartReady).gameState = GameState.PLAYING ∧
    (jump compRestartReady).bird.velocity = 0 ∧
    (jump compStartIdle).bird.velocity = JUMP_STRENGTH ∧
    (0:ℚ) ≠ JUMP_STRENGTH := by
  refine ⟨rfl, rfl, rfl, ?_⟩
  norm_num [JUMP_STRENGTH]

/-- C1 (amended): a player input in `GAME_OVER`, once commentary is not in
flight, restarts to `PLAYING` with the actor reset to mid-height and zero
velocity, the obstacle list cleared and score and frame counter zeroed — but
unlike the `START → PLAYING` transition no upward impulse is applied: the
velocity stays 0, not the jump impulse value. -/
theorem restart_resets_without_impulse (c : Component)
    (hgs : c.gameState = GameState.GAME_OVER) (hl : c.loadingAi = false) :
    (jump c).gameState = GameState.PLAYING ∧
    (jump c).bird = { y := CANVAS_HEIGHT / 2, velocity := 0, rotation := 0 } ∧
    (jump c).pipes = [] ∧ (jump c).score = 0 ∧ (jump c).frameCount = 0 ∧
    (jump c).bird.velocity ≠ JUMP_STRENGTH := by
  obtain ⟨gs, sc, hs, fb, la, b, ps, fc⟩ := c
  simp only [Component.gameState] at hgs
  simp only [Component.loadingAi] at hl
  subst hgs
  subst hl
  simp [jump, startGame, resetGame]
  norm_num [JUMP_STRENGTH]

theorem restart_resets_without_impulse_witness :
    compRestartReady.gameState = GameState.GAME_OVER ∧
    compRestartReady.loadingAi = false ∧
    ((jump compRestartReady).gameState = GameState.PLAYING ∧
      (jump compRestartReady).bird = { y := CANVAS_HEIGHT / 2, velocity := 0, rotation := 0 } ∧
      (jump compRestartReady).pipes = [] ∧ (jump compRestartReady).score = 0 ∧
      (jump compRestartReady).frameCount = 0 ∧
      (jump compRestartReady).bird.velocity ≠ JUMP_STRENGTH) :=
  ⟨rfl, rfl, restart_resets_without_impulse compRestartReady rfl rfl⟩

/-- C2 (counterexample): when the bird hits the bottom pipe and the ground in
the same frame, the `gameOver` handler runs twice — two commentary requests
are issued in that single tick, so the side effects are not run only once. -/
theorem double_gameOver_cex :
    (loopStep 0 0 compDoubleHit).1.gameState = GameState.GAME_OVER ∧
    ¬((loopStep 0 0 compDoubleHit).2 ≤ 1) := by
  norm_num [loopStep, compDoubleHit, compPipeCollision, playingTick, physicsStep, spawnPipes,
    processPipes, updatePipe, groundCeiling, pipeHit, pipePassed, GRAVITY, PIPE_SPEED,
    PIPE_SPAWN_RATE, PIPE_GAP, PIPE_WIDTH, BIRD_RADIUS, BIRD_X, CANVAS_WIDTH, CANVAS_HEIGHT]

/-- C2 (amended): a tick ends in `GAME_OVER` exactly when the state already
was terminal or at least one `gameOver()` trigger fired during the tick — so
ground and pipe collision in the same frame still yield a single resulting
`GAME_OVER` state; but `gameOver`'s side effects (high-score comparison and
commentary request) run once per trigger, and in the combined pipe-plus-ground
frame two commentary requests are issued, not one. -/
theorem gameOver_per_trigger :
    (∀ (r bob : ℚ) (c : Component),
      (loopStep r bob c).1.gameState = GameState.GAME_OVER ↔
        (c.gameState = GameState.GAME_OVER ∨ (loopStep r bob c).2 ≠ 0)) ∧
    (loopStep 0 0 compDoubleHit).1.gameState = GameState.GAME_OVER ∧
    (loopStep 0 0 compDoubleHit).2 = 2 := by
  refine ⟨loopStep_gameState_iff, ?_, ?_⟩ <;>
  norm_num [loopStep, compDoubleHit, compPipeCollision, playingTick, physicsStep, spawnPipes,
    processPipes, updatePipe, groundCeiling, pipeHit, pipePassed, GRAVITY, PIPE_SPEED,
    PIPE_SPAWN_RATE, PIPE_GAP, PIPE_WIDTH, BIRD_RADIUS, BIRD_X, CANVAS_WIDTH, CANVAS_HEIGHT]

/-- C3: in the spec's collision scenario (bird radius 18 at x = 100, pipe of
width 60 at x = 90 with gap top 200 and gap 160, bird at y = 100) the
per-frame update detects the hit — after the physics step the bird is at
y = 100.4 and the pipe at x = 86.5, the collision predicate holds (the
circle's upper bound is above the gap top) — and the tick transitions the
state to `GAME_OVER`, firing exactly one `gameOver` trigger. -/
theorem collision_scenario_gameOver :
    pipeHit { y := 502/5, velocity := 2/5, rotation := 0 } (173/2) 200 ∧
    (loopStep 0 0 compPipeCollision).1.gameState = GameState.GAME_OVER ∧
    (loopStep 0 0 compPipeCollision).2 = 1 := by
  refine ⟨?_, ?_, ?_⟩ <;>
  norm_num [loopStep, compPipeCollision, playingTick, physicsStep, spawnPipes,
    processPipes, updatePipe, groundCeiling, pipeHit, pipePassed, GRAVITY, PIPE_SPEED,
    PIPE_SPAWN_RATE, PIPE_GAP, PIPE_WIDTH, BIRD_RADIUS, BIRD_X, CANVAS_WIDTH, CANVAS_HEIGHT]

/-- C4: with the same pipe and the bird at y = 280 (inside the gap) no
collision fires; when the pipe's trailing edge passes the bird's x (pipe at
x = 43 moves to 39.5, and 39.5 + 60 < 100) with the passed flag false, the
flag flips and the score increments to exactly 1; a further tick leaves the
score at 1, and in general a pipe whose passed flag is already set never
increments the score again. -/
theorem pass_through_scenario :
    ((loopStep 0 0 compInGap).1.gameState = GameState.PLAYING ∧
      (loopStep 0 0 compInGap).1.score = 0 ∧ (loopStep 0 0 compInGap).2 = 0) ∧
    ((loopStep 0 0 compAboutToPass).1.score = 1 ∧
      (loopStep 0 0 compAboutToPass).1.pipes = [{ x := 79/2, topHeight := 200, passed := true }] ∧
      (loopStep 0 0 compAboutToPass).1.gameState = GameState.PLAYING) ∧
    (loopStep 0 0 (loopStep 0 0 compAboutToPass).1).1.score = 1 ∧
    (∀ (b : Bird) (s : ℕ) (x th : ℚ),
      (updatePipe b s { x := x, topHeight := th, passed := true }).score = s) := by
  refine ⟨?_, ?_, ?_, fun b s x th => by simp [updatePipe, pipePassed]⟩ <;>
  norm_num [loopStep, compInGap, compAboutToPass, compPipeCollision, playingTick, physicsStep,
    spawnPipes, processPipes, updatePipe, groundCeiling, pipeHit, pipePassed, GRAVITY,
    PIPE_SPEED, PIPE_SPAWN_RATE, PIPE_GAP, PIPE_WIDTH, BIRD_RADIUS, BIRD_X, CANVAS_WIDTH,
    CANVAS_HEIGHT]

/-- C5: the randomly drawn gap-top height satisfies 50 ≤ h ≤ 290 for every
draw in [0,1), so h plus the gap height plus the ground clearance fits the
play field (h + 160 + 40 ≤ 600); consequently every pipe present after a
`PLAYING` tick either carries a gap-top height it already had or one drawn
within those bounds. -/
theorem spawn_gap_safety (r : ℚ) (h0 : 0 ≤ r) (h1 : r < 1) :
    (50 ≤ randomPipeHeight r ∧ randomPipeHeight r ≤ 290 ∧
      randomPipeHeight r + PIPE_GAP + 40 ≤ CANVAS_HEIGHT) ∧
    (∀ (b : Bird) (ps : List Pipe) (s fc : ℕ),
      ∀ p ∈ (playingTick r b ps s fc).pipes,
        (∃ q ∈ ps, p.topHeight = q.topHeight) ∨
          (50 ≤ p.topHeight ∧ p.topHeight ≤ 290)) := by
  obtain ⟨hlo, hhi⟩ := randomPipeHeight_bounds r h0 h1
  constructor
  · refine ⟨hlo, hhi, ?_⟩
    norm_num [PIPE_GAP, CANVAS_HEIGHT]
    linarith
  · intro b ps s fc p hp
    have hp2 : p ∈ (processPipes (physicsStep b) (spawnPipes r fc ps) s).pipes :=
      List.mem_of_mem_filter hp
    obtain ⟨q, hq, he⟩ := processPipes_topHeights _ _ _ p hp2
    rcases spawnPipes_mem r fc ps q hq with h | h
    · exact Or.inl ⟨q, h, he⟩
    · refine Or.inr ?_
      rw [he, h]
      exact ⟨hlo, hhi⟩

theorem spawn_gap_safety_witness :
    (0:ℚ) ≤ 1/2 ∧ (1/2:ℚ) < 1 ∧
    (50 ≤ randomPipeHeight (1/2) ∧ randomPipeHeight (1/2) ≤ 290 ∧
      randomPipeHeight (1/2) + PIPE_GAP + 40 ≤ CANVAS_HEIGHT) :=
  ⟨by norm_num, by norm_num, (spawn_gap_safety (1/2) (by norm_num) (by norm_num)).1⟩

/-- C6: the score never decreases across any tick, and processing the pipe
list adds to the score exactly the number of pipes whose passed flag
transitions false→true in that frame (the pass test on the moved position)
— there is no other source of score changes. -/
theorem score_monotone_exact :
    (∀ (r bob : ℚ) (c : Component), c.score ≤ (loopStep r bob c).1.score) ∧
    (∀ (b : Bird) (ps : List Pipe) (s : ℕ),
      (processPipes b ps s).score =
        s + ps.countP (fun p => decide (pipePassed p.passed (p.x - PIPE_SPEED)))) := by
  refine ⟨?_, processPipes_score⟩
  intro r bob c
  obtain ⟨gs, sc, hs, fb, la, b, ps, fc⟩ := c
  cases gs <;> simp [loopStep, playingTick, processPipes_score]

/-- C7: in `PLAYING`, whenever the bird's lower bound after the physics step
reaches the ground line, the tick clamps the position to exactly
`CANVAS_HEIGHT - 40 - BIRD_RADIUS` and the state becomes `GAME_OVER`; and a
tick taken in `GAME_OVER` changes nothing (no further physics updates). -/
theorem ground_clamp_and_freeze :
    (∀ (r bob : ℚ) (c : Component), c.gameState = GameState.PLAYING →
      (physicsStep c.bird).y + BIRD_RADIUS ≥ CANVAS_HEIGHT - 40 →
      (loopStep r bob c).1.bird.y = CANVAS_HEIGHT - 40 - BIRD_RADIUS ∧
        (loopStep r bob c).1.gameState = GameState.GAME_OVER) ∧
    (∀ (r bob : ℚ) (c : Component), c.gameState = GameState.GAME_OVER →
      loopStep r bob c = (c, 0)) :=
  ⟨loopStep_ground_clamp, loopStep_frozen⟩

theorem ground_clamp_and_freeze_witness :
    compOnGround.gameState = GameState.PLAYING ∧
    (physicsStep compOnGround.bird).y + BIRD_RADIUS ≥ CANVAS_HEIGHT - 40 ∧
    ((loopStep 0 0 compOnGround).1.bird.y = CANVAS_HEIGHT - 40 - BIRD_RADIUS ∧
      (loopStep 0 0 compOnGround).1.gameState = GameState.GAME_OVER) ∧
    compRestartReady.gameState = GameState.GAME_OVER ∧
    loopStep 0 0 compRestartReady = (compRestartReady, 0) :=
  ⟨rfl,
   by norm_num [physicsStep, compOnGround, compPipeCollision, GRAVITY, BIRD_RADIUS, CANVAS_HEIGHT],
   ground_clamp_and_freeze.1 0 0 compOnGround rfl
     (by norm_num [physicsStep, compOnGround, compPipeCollision, GRAVITY, BIRD_RADIUS,
       CANVAS_HEIGHT]),
   rfl,
   ground_clamp_and_freeze.2 0 0 compRestartReady rfl⟩

/-- C8: with commentary still in flight (`loadingAi = true`) in `GAME_OVER`,
the `jump` input handler ignores the input — but the PLAY AGAIN button's
click handler calls `startGame()` with no such guard and restarts to
`PLAYING` anyway, contradicting the stated restart condition. -/
theorem playAgain_bypasses_loading_guard :
    compLoading.gameState = GameState.GAME_OVER ∧
    compLoading.loadingAi = true ∧
    jump compLoading = compLoading ∧
    (playAgainClick compLoading).gameState = GameState.PLAYING := by
  refine ⟨rfl, rfl, ?_, rfl⟩
  simp [jump, compLoading, compRestartReady]

/-- C9: `getGameFeedback` is total and never yields the empty string: with no
API key it returns the missing-key fallback, on a thrown error it returns the
error fallback, on an absent response text it returns "No comment.", and a
nonempty response text is passed through. -/
theorem feedback_fallback_total (apiKey : String) (score : ℕ) (o : ApiOutcome) :
    getGameFeedback apiKey score o ≠ "" ∧
    (apiKey = "" → getGameFeedback apiKey score o = MSG_NO_KEY) ∧
    (apiKey ≠ "" → o = ApiOutcome.err → getGameFeedback apiKey score o = MSG_API_ERROR) ∧
    (apiKey ≠ "" → o = ApiOutcome.ok none → getGameFeedback apiKey score o = MSG_NO_COMMENT) := by
  by_cases hk : apiKey = ""
  · refine ⟨?_, fun _ => by simp [getGameFeedback, hk], fun h => absurd hk h,
      fun h => absurd hk h⟩
    simp only [getGameFeedback, if_pos hk]
    decide
  · refine ⟨?_, fun h => absurd h hk, fun _ ho => by simp [getGameFeedback, hk, ho],
      fun _ ho => by simp [getGameFeedback, hk, ho]⟩
    simp only [getGameFeedback, if_neg hk]
    cases o with
    | err => decide
    | ok t =>
        cases t with
        | none => decide
        | some s =>
            by_cases hs : s = ""
            · simp only [if_pos hs]
              decide
            · simp only [if_neg hs]
              exact hs

theorem feedback_fallback_total_witness :
    getGameFeedback "" 0 ApiOutcome.err ≠ "" ∧
    getGameFeedback "" 0 ApiOutcome.err = MSG_NO_KEY :=
  ⟨(feedback_fallback_total "" 0 ApiOutcome.err).1,
   (feedback_fallback_total "" 0 ApiOutcome.err).2.1 rfl⟩

/-- C10: the restart zeroes the frame counter, so on the first `PLAYING`
tick the spawn condition `0 % 100 = 0` holds: exactly one pipe is appended at
the right edge (x = 800) and advanced by the pipe speed within the same
tick, leaving the pipe list equal to a single pipe at x = 796.5, the game
still `PLAYING` and the frame counter at 1. -/
theorem first_tick_spawn (c : Component) (r bob : ℚ) :
    (loopStep r bob (startGame c)).1.pipes =
      [{ x := CANVAS_WIDTH - PIPE_SPEED, topHeight := randomPipeHeight r, passed := false }] ∧
    CANVAS_WIDTH - PIPE_SPEED = 1593/2 ∧
    (startGame c).frameCount = 0 ∧
    (loopStep r bob (startGame c)).1.gameState = GameState.PLAYING ∧
    (loopStep r bob (startGame c)).1.frameCount = 1 := by
  refine ⟨?_, by norm_num [CANVAS_WIDTH, PIPE_SPEED], rfl, ?_, ?_⟩ <;>
  norm_num [loopStep, startGame, resetGame, playingTick, physicsStep, spawnPipes, processPipes,
    updatePipe, groundCeiling, pipeHit, pipePassed, GRAVITY, PIPE_SPEED, PIPE_SPAWN_RATE,
    PIPE_GAP, PIPE_WIDTH, BIRD_RADIUS, BIRD_X, CANVAS_WIDTH, CANVAS_HEIGHT]

end Flappy
